import Mathlib

/-!
Shallow embedding of the passport strategy in
lib/passport-linkedin-token-oauth2/strategy.js.

JavaScript conventions used throughout the embedding:
* a field that may be absent (undefined) is an Option;
* an empty string is falsy, so truthiness of an Option String is
  "present and non-empty";
* dereferencing a field of undefined throws a TypeError, modelled with
  Except JsError;
* the host sink calls (fail / error / success) are collected in a list so
  that "exactly one sink call" is a statement about that list;
* calls to the injected HTTP capability (oauth2.get) are collected as the
  list of URLs fetched, in order.
-/

namespace Linkedin

/-- Runtime error raised by the JavaScript evaluation itself (as opposed to an
error value passed to a callback): dereferencing undefined, or a thrown
exception such as a JSON.parse failure, carried with a message. -/
inductive JsError where
  | typeError
  | thrown (msg : String)
deriving DecidableEq

/-- JavaScript truthiness of a possibly-absent string: undefined and the empty
string are falsy, any other string is truthy. -/
def truthy : Option String → Bool
  | none => false
  | some s => s ≠ ""

/-- String coercion used by the + concatenation operator: undefined prints as
"undefined". -/
def jsStr : Option String → String
  | none => "undefined"
  | some s => s

/-- Structured request body (req.body); both token fields may be absent. -/
structure Body where
  access_token : Option String := none
  refresh_token : Option String := none
deriving DecidableEq

/-- Query-string dictionary (req.query); the error field is the provider
error indicator checked at the top of authenticate. -/
structure QueryDict where
  error : Option String := none
  access_token : Option String := none
  refresh_token : Option String := none
deriving DecidableEq

/-- Header dictionary (req.headers). -/
structure HeaderDict where
  access_token : Option String := none
  refresh_token : Option String := none
deriving DecidableEq

/-- An incoming request: body, query and headers may each be absent
altogether (undefined object), which matters because dereferencing an absent
object throws. -/
structure Req where
  body : Option Body := none
  query : Option QueryDict := none
  headers : Option HeaderDict := none
deriving DecidableEq

/-- Reading field f of a possibly-undefined object: throws TypeError when the
object is absent, otherwise yields the (possibly absent) field value. -/
def fld {α : Type} (o : Option α) (f : α → Option String) :
    Except JsError (Option String) :=
  match o with
  | none => .error .typeError
  | some x => .ok (f x)

/-- JavaScript a || b for possibly-absent strings (both already evaluated):
the left operand if truthy, otherwise the right. -/
def jsOr (a b : Option String) : Option String :=
  if truthy a then a else b

/-- JavaScript a || b() || c() where b and c may throw: short-circuit
evaluation, so b and c are only evaluated when every operand to their left
was falsy. -/
def jsOr3 (a : Option String) (b c : Unit → Except JsError (Option String)) :
    Except JsError (Option String) :=
  if truthy a then .ok a
  else
    match b () with
    | .error e => .error e
    | .ok vb => if truthy vb then .ok vb else c ()

/-- Lines 79-82 of strategy.js: the token variable read from req.body when
req.body exists, otherwise left undefined. -/
def bodyField (req : Req) (f : Body → Option String) : Option String :=
  match req.body with
  | some b => f b
  | none => none

/-- Line 84 of strategy.js:
accessToken = accessToken || req.query.access_token || req.headers.access_token
where accessToken was previously read from req.body when req.body exists. -/
def extractAccessToken (req : Req) : Except JsError (Option String) :=
  jsOr3 (bodyField req Body.access_token)
    (fun _ => fld req.query QueryDict.access_token)
    (fun _ => fld req.headers HeaderDict.access_token)

/-- Line 85 of strategy.js, same shape for the refresh token. -/
def extractRefreshToken (req : Req) : Except JsError (Option String) :=
  jsOr3 (bodyField req Body.refresh_token)
    (fun _ => fld req.query QueryDict.refresh_token)
    (fun _ => fld req.headers HeaderDict.refresh_token)

/-- Line 73 of strategy.js: req.query && req.query.error. The guard on
req.query means an absent query object does not throw here. -/
def queryHasErrorIndicator (req : Req) : Bool :=
  match req.query with
  | none => false
  | some q => truthy q.error

/-- preferredLocale of a localized name structure. -/
structure PreferredLocale where
  language : String
  country : String
deriving DecidableEq

/-- A linkedinLocalizedProperty: a localized mapping (locale key to string,
modelled as an association list with first-binding-wins lookup) plus the
preferred locale. Either part may be absent in a malformed document. -/
structure LocalizedProp where
  localized : Option (List (String × String)) := none
  preferredLocale : Option PreferredLocale := none
deriving DecidableEq

/-- getLocalizedName (strategy.js lines 255-257):
name.localized[name.preferredLocale.language + '_' + name.preferredLocale.country].
Dereferencing an absent name, preferredLocale or localized mapping throws a
TypeError; an absent key in a present mapping yields undefined (none), it
does not throw. -/
def getLocalizedName (name : Option LocalizedProp) :
    Except JsError (Option String) :=
  match name with
  | none => .error .typeError
  | some n =>
    match n.preferredLocale with
    | none => .error .typeError
    | some loc =>
      match n.localized with
      | none => .error .typeError
      | some m => .ok (m.lookup (loc.language ++ "_" ++ loc.country))

/-- Resolved email handle (the handle~ object) inside an email element. -/
structure Handle where
  emailAddress : Option String := none
deriving DecidableEq

/-- One element of the email document; handleResolved embeds the
source key "handle~". -/
structure EmailElement where
  handleResolved : Option Handle := none
deriving DecidableEq

/-- Parsed email document; the elements list key may be absent. -/
structure EmailJson where
  elements : Option (List EmailElement) := none
deriving DecidableEq

/-- One identifier entry of a picture element. -/
structure Identifier where
  identifier : Option String := none
deriving DecidableEq

/-- One element of the resolved display image; the element itself may be
null in the array, and its identifiers list may be absent. -/
structure ImgElement where
  identifiers : Option (List Identifier) := none
deriving DecidableEq

/-- The resolved display image (source key "displayImage~"); elements of the
list may individually be null. -/
structure DisplayImage where
  elements : Option (List (Option ImgElement)) := none
deriving DecidableEq

/-- profilePicture of the profile document; displayImageResolved embeds the
source key "displayImage~". -/
structure ProfilePicture where
  displayImageResolved : Option DisplayImage := none
deriving DecidableEq

/-- Parsed profile document (linkedinUserProfile). -/
structure ProfileJson where
  id : Option String := none
  firstName : Option LocalizedProp := none
  lastName : Option LocalizedProp := none
  profilePicture : Option ProfilePicture := none
deriving DecidableEq

/-- An emails / photos entry: the object literal pushed by the reducers.
The value may be undefined for photos (el.identifiers[0].identifier when the
identifier key is absent). -/
structure Entry where
  value : Option String
deriving DecidableEq

/-- The name object of the normalized profile. -/
structure PName where
  familyName : Option String
  givenName : Option String
deriving DecidableEq

/-- The normalized profile built in userProfile; raw and parsedDoc embed the
source fields _raw and _json. Fields not yet assigned are absent. -/
structure Profile where
  provider : String
  id : Option String := none
  name : Option PName := none
  displayName : Option String := none
  emails : Option (List Entry) := none
  photos : Option (List Entry) := none
  raw : Option String := none
  parsedDoc : Option ProfileJson := none
deriving DecidableEq

/-- addEmails (strategy.js lines 259-269): when the elements key exists (a
JavaScript array is truthy even when empty) the emails field is assigned the
reduction pushing one entry per element whose resolved handle carries a
truthy address; when the key is absent the profile is left untouched. -/
def addEmails (profile : Profile) (emailJson : EmailJson) : Profile :=
  match emailJson.elements with
  | none => profile
  | some l =>
    { profile with
      emails := some (l.foldl (fun memo el =>
        match el.handleResolved with
        | some h =>
          if truthy h.emailAddress then memo ++ [{ value := h.emailAddress }]
          else memo
        | none => memo) []) }

/-- addPhotos (strategy.js lines 271-286): guarded on the whole nested chain
profilePicture, displayImage~, elements and a non-empty list; the reduction
pushes, for each non-null element with a non-empty identifiers list, the
first identifier of that element. -/
def addPhotos (profile : Profile) (profileJson : ProfileJson) : Profile :=
  match profileJson.profilePicture with
  | none => profile
  | some pic =>
    match pic.displayImageResolved with
    | none => profile
    | some di =>
      match di.elements with
      | none => profile
      | some l =>
        if l.length > 0 then
          { profile with
            photos := some (l.foldl (fun memo el =>
              match el with
              | none => memo
              | some e =>
                match e.identifiers with
                | none => memo
                | some ids =>
                  match ids with
                  | [] => memo
                  | i :: _ => memo ++ [{ value := i.identifier }]) []) }
        else profile

/-- Environment of injected capabilities: the HTTP capability
oauth2.get(url, accessToken, callback) modelled as a function from url and
token to either a transport error (its cause as an opaque string) or a body,
and the JSON.parse builtin applied to each of the two bodies, which may
throw. The setAccessTokenName mutation on line 149 only renames the wire
parameter inside the capability and is absorbed into get. -/
structure OAuth2Env where
  get : String → String → Except String String
  parseProfile : String → Except JsError ProfileJson
  parseEmail : String → Except JsError EmailJson

/-- Error values handed to callbacks: InternalOAuthError wrapping a
stage-identifying message and the transport cause, a raised JavaScript
error caught by the try block, or an error produced by an asynchronous
skip predicate. -/
inductive StratErr where
  | internalOAuth (msg : String) (cause : String)
  | js (e : JsError)
  | gate (cause : String)
deriving DecidableEq

/-- The configured skipUserProfile option, resolved by the shape inspection
on line 306: a function whose length property exceeds 1 is treated as
asynchronous and called with the token and a callback receiving
(err, skip); any other function is treated as synchronous and called with
no arguments (so a syncFn receives none for its parameter); anything else
is used directly as a boolean. -/
inductive SkipConfig where
  | value (b : Bool)
  | syncFn (f : Option String → Bool)
  | asyncFn (f : String → Option StratErr × Bool)

/-- Static configuration of a strategy instance: the two endpoint URLs, the
passReqToCallback flag and the skipUserProfile option. -/
structure Strategy where
  profileUrl : String
  emailUrl : String
  passReqToCallback : Bool := false
  skipUserProfile : SkipConfig := .value false

/-- The try block of userProfile (strategy.js lines 163-189): parse both
bodies, resolve both localized names (either step may throw), assemble the
normalized profile, then add emails, photos and the raw/parsed documents. -/
def buildProfileTry (env : OAuth2Env) (profileBody emailBody : String) :
    Except JsError Profile := do
  let profileJson ← env.parseProfile profileBody
  let emailJson ← env.parseEmail emailBody
  let familyName ← getLocalizedName profileJson.lastName
  let givenName ← getLocalizedName profileJson.firstName
  let profile : Profile :=
    { provider := "linkedin"
      id := profileJson.id
      name := some { familyName := familyName, givenName := givenName }
      displayName := some (jsStr givenName ++ " " ++ jsStr familyName) }
  let profile := addEmails profile emailJson
  let profile := addPhotos profile profileJson
  let profile := { profile with raw := some profileBody, parsedDoc := some profileJson }
  .ok profile

/-- userProfile (strategy.js lines 145-192): GET the profile URL; on
transport failure wrap as InternalOAuthError with message
"failed to fetch user profile" and stop. Otherwise GET the email URL; on
transport failure wrap with "failed to fetch user email" and stop.
Otherwise run the try block; a raised error reaches done via the catch.
The second component records the URLs fetched, in order. -/
def userProfile (s : Strategy) (env : OAuth2Env) (accessToken : String) :
    Except StratErr Profile × List String :=
  match env.get s.profileUrl accessToken with
  | .error profileErr =>
    (.error (.internalOAuth "failed to fetch user profile" profileErr),
      [s.profileUrl])
  | .ok profileBody =>
    match env.get s.emailUrl accessToken with
    | .error emailErr =>
      (.error (.internalOAuth "failed to fetch user email" emailErr),
        [s.profileUrl, s.emailUrl])
    | .ok emailBody =>
      match buildProfileTry env profileBody emailBody with
      | .error e => (.error (.js e), [s.profileUrl, s.emailUrl])
      | .ok p => (.ok p, [s.profileUrl, s.emailUrl])

/-- loadUserProfile embeds _loadUserProfile (strategy.js lines 295-325).
The async predicate (a function of length above 1) is invoked with the
token; a truthy err short-circuits to done(err). The synchronous predicate
is invoked with no arguments, so its parameter is undefined (none). A
skipped load calls done(null), leaving the profile undefined (none); a
performed load delegates to userProfile. -/
def loadUserProfile (s : Strategy) (env : OAuth2Env) (accessToken : String) :
    Except StratErr (Option Profile) × List String :=
  let loadIt := fun (_ : Unit) =>
    match userProfile s env accessToken with
    | (.error e, calls) => ((.error e : Except StratErr (Option Profile)), calls)
    | (.ok p, calls) => (.ok (some p), calls)
  let skipIt := fun (_ : Unit) =>
    ((.ok none : Except StratErr (Option Profile)), ([] : List String))
  match s.skipUserProfile with
  | .asyncFn f =>
    match f accessToken with
    | (some err, _) => (.error err, [])
    | (none, skip) => if !skip then loadIt () else skipIt ()
  | cfg =>
    let skip : Bool :=
      match cfg with
      | .syncFn f => f none
      | .value b => b
      | .asyncFn _ => false
    if !skip then loadIt () else skipIt ()

/-- A user object handed to done by the verify callback. JavaScript objects
are always truthy, so Option User with isSome-truthiness captures the
object-or-false/null/undefined distinction tested by !user. -/
structure User where
  uid : String
deriving DecidableEq

/-- An info object optionally handed to done by the verify callback. -/
structure Info where
  message : String
deriving DecidableEq

/-- The triple the verify callback passes to its done callback. -/
structure VerifyResult where
  err : Option StratErr := none
  user : Option User := none
  info : Option Info := none

/-- The application-supplied verify callback: receives the request when
passReqToCallback is configured, the access token, the possibly-absent
refresh token and the possibly-absent profile, and yields the triple it
passes to done. -/
abbrev VerifyFn : Type :=
  Option Req → Option String → Option String → Option Profile → VerifyResult

/-- Argument of a fail sink call: this.fail() with no argument,
self.fail(err) with the profile-load error, or self.fail(info) with the
verify info. -/
inductive FailArg where
  | noArg
  | err (e : StratErr)
  | info (i : Option Info)
deriving DecidableEq

/-- One call to the host pipeline sink. -/
inductive Sink where
  | fail (a : FailArg)
  | error (e : StratErr)
  | success (u : User) (i : Option Info)
deriving DecidableEq

/-- The verified callback (strategy.js lines 96-104): a truthy err maps to
self.error(err), a falsy user to self.fail(info), otherwise to
self.success(user, info). -/
def verified (r : VerifyResult) : Sink :=
  match r.err with
  | some e => .error e
  | none =>
    match r.user with
    | none => .fail (.info r.info)
    | some u => .success u r.info

/-- authenticate (strategy.js lines 69-112). Checks the provider error
indicator, extracts both tokens (lines 84-85 may throw when req.query or
req.headers is absent and an earlier operand was falsy), fails on a falsy
access token, runs the profile-load gate, then dispatches the verify
callback result through verified. Returns the sink calls made together
with the URLs fetched, or the JavaScript error thrown. -/
def authenticate (s : Strategy) (env : OAuth2Env) (verify : VerifyFn)
    (req : Req) : Except JsError (List Sink × List String) :=
  if queryHasErrorIndicator req then .ok ([.fail .noArg], [])
  else
    match extractAccessToken req with
    | .error e => .error e
    | .ok accessToken =>
      match extractRefreshToken req with
      | .error e => .error e
      | .ok refreshToken =>
        match accessToken with
        | none => .ok ([.fail .noArg], [])
        | some tok =>
          if tok = "" then .ok ([.fail .noArg], [])
          else
            match loadUserProfile s env tok with
            | (.error e, calls) => .ok ([.fail (.err e)], calls)
            | (.ok profile, calls) =>
              let r := verify (if s.passReqToCallback then some req else none)
                (some tok) refreshToken profile
              .ok ([verified r], calls)

/-- Spec reading of the photos construction, stated for comparison with
addPhotos: one entry per identifier of the first image element ("for each
identifier entry of the first resolved image element, only the first image
element, not first overall identifier across elements"), omitted when the
nested structure, its resolved-image wrapper, or its element list is absent
or empty. -/
def addPhotosClaim (profile : Profile) (profileJson : ProfileJson) : Profile :=
  match profileJson.profilePicture with
  | none => profile
  | some pic =>
    match pic.displayImageResolved with
    | none => profile
    | some di =>
      match di.elements with
      | none => profile
      | some [] => profile
      | some (first :: _) =>
        let ids : List Identifier :=
          match first with
          | some e => e.identifiers.getD []
          | none => []
        { profile with
          photos := some (ids.map (fun i => { value := i.identifier })) }

/-- Spec reading of the localization resolver, stated for comparison with
getLocalizedName: indexes the mapping with the key language_country and
fails with a lookup error when the mapping lacks that key, rather than
yielding an absent value. -/
def getLocalizedNameClaim (name : Option LocalizedProp) :
    Except JsError (Option String) :=
  match name with
  | none => .error .typeError
  | some n =>
    match n.preferredLocale with
    | none => .error .typeError
    | some loc =>
      match n.localized with
      | none => .error .typeError
      | some m =>
        match m.lookup (loc.language ++ "_" ++ loc.country) with
        | some v => .ok (some v)
        | none => .error (.thrown "missing locale key")

/-- The entry the addEmails reduction contributes for one email element:
present exactly when the element carries a resolved handle with a truthy
address. -/
def emailEntry (el : EmailElement) : Option Entry :=
  match el.handleResolved with
  | some h => if truthy h.emailAddress then some { value := h.emailAddress } else none
  | none => none

/-- The entry the addPhotos reduction contributes for one image element:
the first identifier of that element, present exactly when the element is
non-null and its identifiers list is non-empty. -/
def photoEntry (el : Option ImgElement) : Option Entry :=
  match el with
  | none => none
  | some e =>
    match e.identifiers with
    | none => none
    | some ids =>
      match ids with
      | [] => none
      | i :: _ => some { value := i.identifier }

theorem addEmails_foldl (l : List EmailElement) (init : List Entry) :
    l.foldl (fun memo el =>
      match el.handleResolved with
      | some h =>
        if truthy h.emailAddress then memo ++ [{ value := h.emailAddress }]
        else memo
      | none => memo) init
    = init ++ l.filterMap emailEntry := by
  induction l generalizing init with
  | nil => simp
  | cons x xs ih =>
    cases h : x.handleResolved with
    | none => simp [List.foldl, h, emailEntry, ih]
    | some hh =>
      by_cases ht : truthy hh.emailAddress <;>
        simp [List.foldl, h, emailEntry, ht, ih]

theorem addPhotos_foldl (l : List (Option ImgElement)) (init : List Entry) :
    l.foldl (fun (memo : List Entry) (el : Option ImgElement) =>
      match el with
      | none => memo
      | some e =>
        match e.identifiers with
        | none => memo
        | some ids =>
          match ids with
          | [] => memo
          | i :: _ => memo ++ [{ value := i.identifier }]) init
    = init ++ l.filterMap photoEntry := by
  induction l generalizing init with
  | nil => simp
  | cons x xs ih =>
    cases x with
    | none => simp [List.foldl, photoEntry, ih]
    | some e =>
      cases hids : e.identifiers with
      | none => simp [List.foldl, photoEntry, hids, ih]
      | some ids =>
        cases ids with
        | nil => simp [List.foldl, photoEntry, hids, ih]
        | cons i rest => simp [List.foldl, photoEntry, hids, ih]

theorem extractAccessToken_total (req : Req) (q : QueryDict) (hd : HeaderDict)
    (hq : req.query = some q) (hh : req.headers = some hd) :
    extractAccessToken req
      = .ok (jsOr (bodyField req Body.access_token)
          (jsOr q.access_token hd.access_token)) := by
  unfold extractAccessToken jsOr3 jsOr fld
  rw [hq, hh]
  by_cases t1 : truthy (bodyField req Body.access_token) <;>
    by_cases t2 : truthy q.access_token <;> simp [t1, t2]

theorem extractRefreshToken_total (req : Req) (q : QueryDict) (hd : HeaderDict)
    (hq : req.query = some q) (hh : req.headers = some hd) :
    extractRefreshToken req
      = .ok (jsOr (bodyField req Body.refresh_token)
          (jsOr q.refresh_token hd.refresh_token)) := by
  unfold extractRefreshToken jsOr3 jsOr fld
  rw [hq, hh]
  by_cases t1 : truthy (bodyField req Body.refresh_token) <;>
    by_cases t2 : truthy q.refresh_token <;> simp [t1, t2]

instance {ε α : Type} [DecidableEq ε] [DecidableEq α] :
    DecidableEq (Except ε α) := fun a b =>
  match a, b with
  | .error e, .error f =>
    if h : e = f then isTrue (congrArg Except.error h)
    else isFalse (by intro hh; cases hh; exact h rfl)
  | .ok x, .ok y =>
    if h : x = y then isTrue (congrArg Except.ok h)
    else isFalse (by intro hh; cases hh; exact h rfl)
  | .error _, .ok _ => isFalse (by intro hh; cases hh)
  | .ok _, .error _ => isFalse (by intro hh; cases hh)

/-- Fixture strategy with the default passReqToCallback and skipUserProfile
options. -/
def s0 : Strategy := { profileUrl := "profile-url", emailUrl := "email-url" }

/-- Fixture strategy whose skipUserProfile option is the boolean true. -/
def sSkip : Strategy :=
  { profileUrl := "profile-url", emailUrl := "email-url"
    skipUserProfile := .value true }

/-- Fixture strategy whose skipUserProfile option is a synchronous
one-parameter predicate returning the truthiness of its argument. -/
def sSyncPred : Strategy :=
  { profileUrl := "profile-url", emailUrl := "email-url"
    skipUserProfile := .syncFn (fun tok => tok.isSome) }

/-- Fixture capability whose every GET fails with cause "boom". -/
def envDown : OAuth2Env :=
  { get := fun _ _ => .error "boom"
    parseProfile := fun _ => .error (.thrown "no parse")
    parseEmail := fun _ => .error (.thrown "no parse") }

/-- Fixture capability where the profile GET succeeds with body "pbody" and
the email GET fails with cause "edown". -/
def envEmailDown : OAuth2Env :=
  { get := fun url _ => if url = "email-url" then .error "edown" else .ok "pbody"
    parseProfile := fun _ => .ok {}
    parseEmail := fun _ => .ok {} }

/-- Fixture verify callback whose done triple carries neither an error nor
a user. -/
def verifyNone : VerifyFn := fun _ _ _ _ => {}

/-- Fixture verify callback accepting every request with user u1. -/
def verifyUser : VerifyFn := fun _ _ _ _ => { user := some { uid := "u1" } }

/-- Fixture request carrying both tokens in the body and no query, header
or body beyond that. -/
def reqBodyBoth : Req :=
  { body := some { access_token := some "tok", refresh_token := some "ref" } }

/-- C1 counterexample: the claim says the callback authenticate passes to
the profile loader routes a truthy err to error(err) and never to fail.
On a request whose profile fetch fails, the single sink call actually made
is self.fail(err) (strategy.js line 93) carrying the wrapped transport
error, and it is not the error(err) call the claim predicts. -/
theorem C1_counterexample :
    authenticate s0 envDown verifyNone reqBodyBoth
      = .ok ([.fail (.err (.internalOAuth "failed to fetch user profile" "boom"))],
          ["profile-url"])
    ∧ authenticate s0 envDown verifyNone reqBodyBoth
      ≠ .ok ([.error (.internalOAuth "failed to fetch user profile" "boom")],
          ["profile-url"]) := by
  constructor <;> decide

/-- C1 amended: for every request whose profile-load step completes with an
error (gate error, upstream transport error, or parse error), the callback
passed by authenticate to the profile loader routes the truthy err to
self.fail(err) — not to error — with that error, and the sink is called
exactly once. -/
theorem C1_load_error_routed_to_fail (s : Strategy) (env : OAuth2Env)
    (verify : VerifyFn) (req : Req) (tok : String) (r : Option String)
    (e : StratErr) (calls : List String)
    (hqe : queryHasErrorIndicator req = false)
    (ha : extractAccessToken req = .ok (some tok)) (ht : tok ≠ "")
    (hr : extractRefreshToken req = .ok r)
    (hl : loadUserProfile s env tok = (.error e, calls)) :
    authenticate s env verify req = .ok ([.fail (.err e)], calls) := by
  simp [authenticate, hqe, ha, hr, ht, hl]

/-- C1 witness: the amended theorem applied to the transport-failure
fixture. -/
theorem C1_witness :
    authenticate s0 envDown verifyNone reqBodyBoth
      = .ok ([.fail (.err (.internalOAuth "failed to fetch user profile" "boom"))],
          ["profile-url"]) :=
  C1_load_error_routed_to_fail s0 envDown verifyNone reqBodyBoth "tok" (some "ref")
    (.internalOAuth "failed to fetch user profile" "boom") ["profile-url"]
    (by decide) (by decide) (by decide) (by decide) (by decide)

/-- C2: for every request whose query and headers objects are present (the
precondition under which token extraction cannot throw, see C10),
authenticate terminates normally having made exactly one sink call, on
every path: the sink list of the outcome has length one. -/
theorem C2_exactly_one_sink (s : Strategy) (env : OAuth2Env)
    (verify : VerifyFn) (req : Req) (q : QueryDict) (hd : HeaderDict)
    (hq : req.query = some q) (hh : req.headers = some hd) :
    ∃ sinks calls, authenticate s env verify req = .ok (sinks, calls)
      ∧ sinks.length = 1 := by
  have hA := extractAccessToken_total req q hd hq hh
  have hR := extractRefreshToken_total req q hd hq hh
  unfold authenticate
  rw [hA, hR]
  by_cases hqe : queryHasErrorIndicator req
  · simp only [hqe, if_true]
    exact ⟨_, _, rfl, rfl⟩
  · simp only [Bool.not_eq_true] at hqe
    simp only [hqe, Bool.false_eq_true, if_false]
    cases htok : jsOr (bodyField req Body.access_token)
        (jsOr q.access_token hd.access_token) with
    | none => exact ⟨_, _, rfl, rfl⟩
    | some tok =>
      by_cases ht : tok = ""
      · simp only [ht, if_pos rfl]
        exact ⟨_, _, rfl, rfl⟩
      · simp only [if_neg ht]
        cases hl : loadUserProfile s env tok with
        | mk res calls =>
          cases res with
          | error e => exact ⟨_, _, rfl, rfl⟩
          | ok profile => exact ⟨_, _, rfl, rfl⟩

/-- C2 witness: the sink-uniqueness theorem applied to a concrete request
carrying its token in the query string. -/
theorem C2_witness :
    ∃ sinks calls,
      authenticate sSkip envDown verifyUser
        { query := some { access_token := some "tok" }, headers := some {} }
        = .ok (sinks, calls) ∧ sinks.length = 1 :=
  C2_exactly_one_sink sSkip envDown verifyUser
    { query := some { access_token := some "tok" }, headers := some {} }
    { access_token := some "tok" } {} rfl rfl

/-- C3: with query and headers present, the access token is selected with
strict body, then query, then header precedence — the body value whenever
it is truthy, the query value when the body tier is absent/empty, the
header value when both earlier tiers are absent/empty — and the same
independent precedence holds for the refresh token. -/
theorem C3_token_precedence (req : Req) (q : QueryDict) (hd : HeaderDict)
    (hq : req.query = some q) (hh : req.headers = some hd) :
    ((truthy (bodyField req Body.access_token) = true →
        extractAccessToken req = .ok (bodyField req Body.access_token))
      ∧ (truthy (bodyField req Body.access_token) = false →
          truthy q.access_token = true →
          extractAccessToken req = .ok q.access_token)
      ∧ (truthy (bodyField req Body.access_token) = false →
          truthy q.access_token = false →
          extractAccessToken req = .ok hd.access_token))
    ∧ ((truthy (bodyField req Body.refresh_token) = true →
        extractRefreshToken req = .ok (bodyField req Body.refresh_token))
      ∧ (truthy (bodyField req Body.refresh_token) = false →
          truthy q.refresh_token = true →
          extractRefreshToken req = .ok q.refresh_token)
      ∧ (truthy (bodyField req Body.refresh_token) = false →
          truthy q.refresh_token = false →
          extractRefreshToken req = .ok hd.refresh_token)) := by
  have hA := extractAccessToken_total req q hd hq hh
  have hR := extractRefreshToken_total req q hd hq hh
  refine ⟨⟨?_, ?_, ?_⟩, ?_, ?_, ?_⟩
  · intro h1; rw [hA]; simp [jsOr, h1]
  · intro h1 h2; rw [hA]; simp [jsOr, h1, h2]
  · intro h1 h2; rw [hA]; simp [jsOr, h1, h2]
  · intro h1; rw [hR]; simp [jsOr, h1]
  · intro h1 h2; rw [hR]; simp [jsOr, h1, h2]
  · intro h1 h2; rw [hR]; simp [jsOr, h1, h2]

/-- Fixture request carrying different token values in body, query and
headers simultaneously. -/
def reqAll3 : Req :=
  { body := some { access_token := some "body-tok", refresh_token := some "body-ref" }
    query := some { access_token := some "query-tok", refresh_token := some "query-ref" }
    headers := some { access_token := some "header-tok", refresh_token := some "header-ref" } }

/-- Fixture request like reqAll3 with the body tier removed. -/
def reqQH : Req :=
  { query := some { access_token := some "query-tok", refresh_token := some "query-ref" }
    headers := some { access_token := some "header-tok", refresh_token := some "header-ref" } }

/-- Fixture request like reqAll3 with both the body and query values
removed. -/
def reqHOnly : Req :=
  { query := some {}
    headers := some { access_token := some "header-tok", refresh_token := some "header-ref" } }

/-- C3 witness: the precedence theorem applied to concrete requests with
different values in all three locations, then without body, then with
headers only. -/
theorem C3_witness :
    extractAccessToken reqAll3 = .ok (some "body-tok")
    ∧ extractAccessToken reqQH = .ok (some "query-tok")
    ∧ extractAccessToken reqHOnly = .ok (some "header-tok")
    ∧ extractRefreshToken reqAll3 = .ok (some "body-ref")
    ∧ extractRefreshToken reqQH = .ok (some "query-ref")
    ∧ extractRefreshToken reqHOnly = .ok (some "header-ref") :=
  ⟨(C3_token_precedence reqAll3 _ _ rfl rfl).1.1 (by decide),
   (C3_token_precedence reqQH _ _ rfl rfl).1.2.1 (by decide) (by decide),
   (C3_token_precedence reqHOnly _ _ rfl rfl).1.2.2 (by decide) (by decide),
   (C3_token_precedence reqAll3 _ _ rfl rfl).2.1 (by decide),
   (C3_token_precedence reqQH _ _ rfl rfl).2.2.1 (by decide) (by decide),
   (C3_token_precedence reqHOnly _ _ rfl rfl).2.2.2 (by decide) (by decide)⟩

/-- C4: a request exposing a provider error indicator in the query string,
and a request resolving no (truthy) access token from any of the three
locations, both terminate with the single sink call fail — never error and
never success — and the list of HTTP capability calls is empty. -/
theorem C4_local_conditions_fail_no_fetch (s : Strategy) (env : OAuth2Env)
    (verify : VerifyFn) (req : Req) :
    (queryHasErrorIndicator req = true →
       authenticate s env verify req = .ok ([.fail .noArg], []))
    ∧ (∀ v r, queryHasErrorIndicator req = false →
        extractAccessToken req = .ok v → truthy v = false →
        extractRefreshToken req = .ok r →
        authenticate s env verify req = .ok ([.fail .noArg], [])) := by
  constructor
  · intro hqe
    simp [authenticate, hqe]
  · intro v r hqe hv htr hr
    cases v with
    | none => simp [authenticate, hqe, hv, hr]
    | some tok =>
      have hemp : tok = "" := by simpa [truthy] using htr
      subst hemp
      simp [authenticate, hqe, hv, hr]

/-- C4 witness: the fail-fast theorem applied to a request with a provider
error indicator and to a request with no token anywhere. -/
theorem C4_witness :
    authenticate s0 envDown verifyNone
        { query := some { error := some "access_denied" } }
      = .ok ([.fail .noArg], [])
    ∧ authenticate s0 envDown verifyNone
        { query := some {}, headers := some {} }
      = .ok ([.fail .noArg], []) :=
  ⟨(C4_local_conditions_fail_no_fetch s0 envDown verifyNone
      { query := some { error := some "access_denied" } }).1 (by decide),
   (C4_local_conditions_fail_no_fetch s0 envDown verifyNone
      { query := some {}, headers := some {} }).2 none none (by decide)
      (by decide) (by decide) (by decide)⟩

/-- C5: in userProfile the email URL is fetched only after the profile
fetch succeeded: when the profile GET fails with transport error e, done is
called exactly once with an InternalOAuthError wrapping the message
"failed to fetch user profile" and cause e, and the fetched-URL list is
just the profile URL (no email GET); when the profile GET succeeds and the
email GET fails, done receives an InternalOAuthError wrapping
"failed to fetch user email". -/
theorem C5_sequential_fetch (s : Strategy) (env : OAuth2Env) (tok : String) :
    (∀ e, env.get s.profileUrl tok = .error e →
       userProfile s env tok
         = (.error (.internalOAuth "failed to fetch user profile" e),
             [s.profileUrl]))
    ∧ (∀ body e, env.get s.profileUrl tok = .ok body →
        env.get s.emailUrl tok = .error e →
        userProfile s env tok
          = (.error (.internalOAuth "failed to fetch user email" e),
              [s.profileUrl, s.emailUrl])) := by
  constructor
  · intro e he
    simp [userProfile, he]
  · intro body e hb he
    simp [userProfile, hb, he]

/-- C5 witness: the sequencing theorem applied to a capability whose
profile GET fails, and to one whose profile GET succeeds while the email
GET fails. -/
theorem C5_witness :
    userProfile s0 envDown "tok"
      = (.error (.internalOAuth "failed to fetch user profile" "boom"),
          ["profile-url"])
    ∧ userProfile s0 envEmailDown "tok"
      = (.error (.internalOAuth "failed to fetch user email" "edown"),
          ["profile-url", "email-url"]) :=
  ⟨(C5_sequential_fetch s0 envDown "tok").1 "boom" (by decide),
   (C5_sequential_fetch s0 envEmailDown "tok").2 "pbody" "edown" (by decide)
     (by decide)⟩

/-- C6: starting from a profile without an emails field, addEmails leaves
the field absent when the email document has no element list key at all;
when the list exists, the field is assigned the in-order entries of the
elements carrying a resolved handle with a truthy address (one entry with
the address as value per such element), so a list with no usable entry —
in particular the empty list — yields a present-but-empty field. -/
theorem C6_emails_asymmetry (p : Profile) (ej : EmailJson)
    (hp : p.emails = none) :
    (ej.elements = none → (addEmails p ej).emails = none)
    ∧ (∀ l, ej.elements = some l →
        (addEmails p ej).emails = some (l.filterMap emailEntry))
    ∧ (ej.elements = some [] → (addEmails p ej).emails = some []) := by
  refine ⟨?_, ?_, ?_⟩
  · intro h
    simp [addEmails, h, hp]
  · intro l h
    simp [addEmails, h, addEmails_foldl]
  · intro h
    simp [addEmails, h]

/-- Fixture email document with four elements: a usable one, one without a
resolved handle, one with an empty address and a second usable one. -/
def ejDoc : EmailJson :=
  { elements := some
      [ { handleResolved := some { emailAddress := some "a@x" } },
        { handleResolved := none },
        { handleResolved := some { emailAddress := some "" } },
        { handleResolved := some { emailAddress := some "b@x" } } ] }

/-- C6 witness: the asymmetry theorem applied to a document with no element
list, to the four-element fixture (order preserved, unusable elements
dropped) and to a document with an empty element list. -/
theorem C6_witness :
    (addEmails { provider := "linkedin" } {}).emails = none
    ∧ (addEmails { provider := "linkedin" } ejDoc).emails
        = some [{ value := some "a@x" }, { value := some "b@x" }]
    ∧ (addEmails { provider := "linkedin" } { elements := some [] }).emails
        = some [] :=
  ⟨(C6_emails_asymmetry { provider := "linkedin" } {} rfl).1 rfl,
   (C6_emails_asymmetry { provider := "linkedin" } ejDoc rfl).2.1 _ rfl,
   (C6_emails_asymmetry { provider := "linkedin" } { elements := some [] }
      rfl).2.2 rfl⟩

/-- Fixture image element with identifiers a and b. -/
def imgElemAB : ImgElement :=
  { identifiers := some [{ identifier := some "a" }, { identifier := some "b" }] }

/-- Fixture image element with identifiers c and d. -/
def imgElemCD : ImgElement :=
  { identifiers := some [{ identifier := some "c" }, { identifier := some "d" }] }

/-- Fixture resolved display image holding the two fixture elements. -/
def diTwo : DisplayImage := { elements := some [some imgElemAB, some imgElemCD] }

/-- Fixture picture structure around diTwo. -/
def picTwo : ProfilePicture := { displayImageResolved := some diTwo }

/-- Fixture profile document whose picture carries two image elements with
two identifiers each. -/
def pjTwoElems : ProfileJson := { profilePicture := some picTwo }

/-- C7 counterexample: the claim says photos collects each identifier entry
of the first image element. On a document with two elements of two
identifiers each, addPhotos actually collects the first identifier of each
element (strategy.js line 280), yielding a and c, whereas the claimed
construction yields a and b; the two disagree. -/
theorem C7_counterexample :
    (addPhotos { provider := "linkedin" } pjTwoElems).photos
      = some [{ value := some "a" }, { value := some "c" }]
    ∧ (addPhotosClaim { provider := "linkedin" } pjTwoElems).photos
      = some [{ value := some "a" }, { value := some "b" }]
    ∧ (addPhotos { provider := "linkedin" } pjTwoElems).photos
      ≠ (addPhotosClaim { provider := "linkedin" } pjTwoElems).photos := by
  refine ⟨by decide, by decide, by decide⟩

/-- C7 amended: starting from a profile without a photos field, the field
stays absent when the nested picture structure, its resolved-image wrapper
or its element list is absent or empty; on a non-empty element list the
field is assigned, in source order, one entry per non-null element with a
non-empty identifiers list, carrying the first identifier of that
element. -/
theorem C7_photos_first_identifier_per_element (p : Profile)
    (pj : ProfileJson) (hp : p.photos = none) :
    (pj.profilePicture = none → (addPhotos p pj).photos = none)
    ∧ (∀ pic, pj.profilePicture = some pic → pic.displayImageResolved = none →
        (addPhotos p pj).photos = none)
    ∧ (∀ pic di, pj.profilePicture = some pic →
        pic.displayImageResolved = some di → di.elements = none →
        (addPhotos p pj).photos = none)
    ∧ (∀ pic di, pj.profilePicture = some pic →
        pic.displayImageResolved = some di → di.elements = some [] →
        (addPhotos p pj).photos = none)
    ∧ (∀ pic di l, pj.profilePicture = some pic →
        pic.displayImageResolved = some di → di.elements = some l → l ≠ [] →
        (addPhotos p pj).photos = some (l.filterMap photoEntry)) := by
  refine ⟨?_, ?_, ?_, ?_, ?_⟩
  · intro h
    simp [addPhotos, h, hp]
  · intro pic h1 h2
    simp [addPhotos, h1, h2, hp]
  · intro pic di h1 h2 h3
    simp [addPhotos, h1, h2, h3, hp]
  · intro pic di h1 h2 h3
    simp [addPhotos, h1, h2, h3, hp]
  · intro pic di l h1 h2 h3 hne
    have hlen : 0 < l.length := List.length_pos.mpr hne
    simp [addPhotos, h1, h2, h3, hlen, addPhotos_foldl]

/-- C7 witness: the amended theorem applied to a document with no picture
structure and to the two-element fixture. -/
theorem C7_witness :
    (addPhotos { provider := "linkedin" } {}).photos = none
    ∧ (addPhotos { provider := "linkedin" } pjTwoElems).photos
        = some [{ value := some "a" }, { value := some "c" }] :=
  ⟨(C7_photos_first_identifier_per_element { provider := "linkedin" } {}
      rfl).1 rfl,
   (C7_photos_first_identifier_per_element { provider := "linkedin" }
      pjTwoElems rfl).2.2.2.2 picTwo diTwo [some imgElemAB, some imgElemCD]
      rfl rfl rfl (by decide)⟩

/-- C8 counterexample: the claim says a synchronous skip predicate is
invoked with the access token as its argument, so with the predicate
"return the truthiness of my argument" and token tok present, the gate
would skip — done(null, null) and zero HTTP calls. The code invokes the
predicate with no arguments (strategy.js line 318), the predicate sees
undefined and returns false, the profile IS fetched (one HTTP call) and
the transport error surfaces, differing from the claimed outcome. -/
theorem C8_counterexample :
    loadUserProfile sSyncPred envDown "tok"
      = (.error (.internalOAuth "failed to fetch user profile" "boom"),
          ["profile-url"])
    ∧ loadUserProfile sSyncPred envDown "tok"
      ≠ ((.ok none, []) : Except StratErr (Option Profile) × List String) := by
  constructor <;> decide

/-- C8 amended: the configured synchronous skip predicate (a function of
fewer than two parameters) is invoked with no arguments, so it observes an
undefined argument; whenever the value it resolves — or the configured
boolean, including skipUserProfile set to true — is truthy, the gate calls
done with a null error and no profile and makes zero calls to the HTTP
capability; on a falsy value it delegates to userProfile. -/
theorem C8_skip_gate (s : Strategy) (env : OAuth2Env) (tok : String) :
    (s.skipUserProfile = .value true →
       loadUserProfile s env tok = (.ok none, []))
    ∧ (∀ f, s.skipUserProfile = .syncFn f →
        loadUserProfile s env tok
          = (if f none then
              ((.ok none : Except StratErr (Option Profile)), ([] : List String))
             else ((userProfile s env tok).1.map some,
               (userProfile s env tok).2))) := by
  constructor
  · intro h
    simp [loadUserProfile, h]
  · intro f h
    by_cases hf : f none = true
    · simp [loadUserProfile, h, hf]
    · simp only [Bool.not_eq_true] at hf
      cases hu : userProfile s env tok with
      | mk res calls =>
        cases res <;> simp [loadUserProfile, h, hf, hu, Except.map]

/-- C8 witness: the amended theorem applied to the skipUserProfile-true
fixture, showing a skipped load with no profile and zero HTTP calls. -/
theorem C8_witness :
    loadUserProfile sSkip envDown "tok" = (.ok none, []) :=
  (C8_skip_gate sSkip envDown "tok").1 rfl

/-- Fixture localized name structure whose mapping lacks the preferred
locale key fr_FR. -/
def nameMissingKey : LocalizedProp :=
  { localized := some [("en_US", "Tina")]
    preferredLocale := some { language := "fr", country := "FR" } }

/-- C9 counterexample: the claim says a mapping lacking the key
language_country makes resolution fail with a lookup error. Indexing a
present mapping with a missing key yields undefined in JavaScript
(strategy.js line 256) without raising anything: getLocalizedName returns
ok none, while the claimed resolver returns a lookup error; the two
disagree on the fixture missing fr_FR. -/
theorem C9_counterexample :
    getLocalizedName (some nameMissingKey) = .ok none
    ∧ getLocalizedNameClaim (some nameMissingKey)
        = .error (.thrown "missing locale key")
    ∧ getLocalizedName (some nameMissingKey)
        ≠ getLocalizedNameClaim (some nameMissingKey) := by
  refine ⟨by decide, by decide, by decide⟩

/-- C9 amended: the resolver builds the lookup key as language, underscore,
country from the preferred-locale fields and indexes the localized mapping
with exactly that key, attempting no fallback locale; when the mapping
lacks the key, resolution yields the absent value (undefined) rather than
a usable string, and no lookup error is raised. -/
theorem C9_locale_key_lookup (n : LocalizedProp) (loc : PreferredLocale)
    (m : List (String × String))
    (hl : n.preferredLocale = some loc) (hm : n.localized = some m) :
    getLocalizedName (some n)
      = .ok (m.lookup (loc.language ++ "_" ++ loc.country))
    ∧ (m.lookup (loc.language ++ "_" ++ loc.country) = none →
        getLocalizedName (some n) = .ok none) := by
  constructor
  · simp [getLocalizedName, hl, hm]
  · intro h
    simp [getLocalizedName, hl, hm, h]

/-- C9 witness: the amended theorem applied to the fixture whose mapping
holds en_US while the preferred locale is fr_FR. -/
theorem C9_witness :
    getLocalizedName (some nameMissingKey) = .ok none :=
  (C9_locale_key_lookup nameMissingKey { language := "fr", country := "FR" }
    [("en_US", "Tina")] rfl rfl).2 (by decide)

/-- C10 counterexample: the claim says authenticate unconditionally
dereferences req.query and req.headers during token extraction, so every
request carrying the token in the body with no query object throws. The ||
chains short-circuit: a request whose body carries both tokens never
touches req.query or req.headers, completes normally and reaches a sink
(here a success through the skip gate). -/
theorem C10_counterexample :
    authenticate sSkip envDown verifyUser reqBodyBoth
      = .ok ([.success { uid := "u1" } none], []) := by
  decide

/-- C10 amended: token extraction dereferences req.query (and req.headers)
only when every earlier operand of the corresponding || chain is falsy, so
authenticate is total over all requests only under the precondition that
req.query and req.headers are present; in particular a request carrying a
truthy access token but no refresh token in the body, with no query object
at all, throws a TypeError during refresh-token extraction instead of
reaching a sink. -/
theorem C10_throws_without_query (s : Strategy) (env : OAuth2Env)
    (verify : VerifyFn) (req : Req) (b : Body)
    (hb : req.body = some b) (hq : req.query = none)
    (ha : truthy b.access_token = true)
    (hr : truthy b.refresh_token = false) :
    authenticate s env verify req = .error .typeError := by
  have hqe : queryHasErrorIndicator req = false := by
    simp [queryHasErrorIndicator, hq]
  have hA : extractAccessToken req = .ok b.access_token := by
    simp [extractAccessToken, jsOr3, bodyField, hb, ha]
  have hR : extractRefreshToken req = .error .typeError := by
    simp [extractRefreshToken, jsOr3, bodyField, fld, hb, hr, hq]
  simp [authenticate, hqe, hA, hR]

/-- Fixture request carrying only the access token, in the body. -/
def reqBodyAccessOnly : Req := { body := some { access_token := some "tok" } }

/-- C10 witness: the amended theorem applied to a request with the access
token in the body, no refresh token and no query object. -/
theorem C10_witness :
    authenticate s0 envDown verifyNone reqBodyAccessOnly
      = .error .typeError :=
  C10_throws_without_query s0 envDown verifyNone reqBodyAccessOnly
    { access_token := some "tok" } rfl rfl (by decide) (by decide)

end Linkedin
